import Mathlib

/-!
Verification of the chat relay service in `src/main.py`.

The Flask handlers are embedded as pure Lean functions:

* the process-wide `chat_sessions` dict becomes an insertion-ordered
  association list `Sessions` (Python dicts preserve insertion order;
  assignment to an existing key keeps its position);
* `time.time()` becomes a monotone tick counter threaded through the
  handlers: each read returns the current value and advances it, so
  successive reads yield strictly increasing timestamps;
* the OpenAI client becomes an `Upstream` oracle: `complete` maps a
  prompt and model to either a response text or a raised error
  description, and `streamChunks` maps them to the list of delta
  chunks actually delivered (each `Option String`, as in the Python
  `chunk.choices[0].delta.content`) followed by an optional mid-stream
  error description;
* the streaming generator body becomes a trace of `Action`s, each an
  SSE event emission or a session append, in execution order.
-/

namespace Relay

/-- Whitespace characters recognised by Python `str.strip()` (ASCII range). -/
def isPySpace (c : Char) : Bool :=
  c = ' ' || c = '\t' || c = '\n' || c = '\r' || c = '\x0b' || c = '\x0c'

/-- Python `str.strip()`: drop leading and trailing whitespace. -/
def pstrip (s : String) : String :=
  ⟨((s.toList.dropWhile isPySpace).reverse.dropWhile isPySpace).reverse⟩

/-- A session message: `{"role": ..., "content": ..., "timestamp": time.time()}`. -/
structure Message where
  role : String
  content : String
  timestamp : Nat
deriving DecidableEq, Repr

/-- The `chat_sessions` dict: insertion-ordered map from session id to messages. -/
abbrev Sessions := List (String × List Message)

/-- Dict lookup `chat_sessions[sid]` / membership test (first matching key). -/
def getSess (s : Sessions) (sid : String) : Option (List Message) :=
  match s with
  | [] => none
  | (k, v) :: rest => if k = sid then some v else getSess rest sid

/-- `session_id in chat_sessions`. -/
def hasSess (s : Sessions) (sid : String) : Bool :=
  (getSess s sid).isSome

/-- Dict assignment `chat_sessions[sid] = v`: update in place, or append a new key. -/
def setSess : Sessions → String → List Message → Sessions
  | [], sid, v => [(sid, v)]
  | (k, w) :: rest, sid, v =>
      if k = sid then (k, v) :: rest else (k, w) :: setSess rest sid v

/-- `del chat_sessions[sid]` (caller has checked membership). -/
def delSess : Sessions → String → Sessions
  | [], _ => []
  | (k, w) :: rest, sid => if k = sid then rest else (k, w) :: delSess rest sid

/-- `if session_id not in chat_sessions: chat_sessions[session_id] = []`. -/
def initSession (s : Sessions) (sid : String) : Sessions :=
  if hasSess s sid then s else setSess s sid []

/-- `chat_sessions[sid].append(m)`. -/
def appendMsg (s : Sessions) (sid : String) (m : Message) : Sessions :=
  setSess s sid ((getSess s sid).getD [] ++ [m])

/-- `DEFAULT_MODEL = "gpt-3.5-turbo"`. -/
def DEFAULT_MODEL : String := "gpt-3.5-turbo"

/-- The fixed `SYSTEM_MESSAGE` string. -/
def SYSTEM_MESSAGE : String :=
  "You are ChatGPT, a helpful AI assistant created by OpenAI. You provide accurate, helpful, and friendly responses."

/-- One entry of the `messages` list sent to the upstream API. -/
structure PromptMsg where
  role : String
  content : String
deriving DecidableEq, Repr

/-- Python `l[-n:]`: the last `n` elements (the whole list when shorter). -/
def lastN (n : Nat) (l : List Message) : List Message :=
  l.drop (l.length - n)

/-- Prompt built in `generate_openai_response`: start from the system message,
then loop over `chat_sessions[session_id][-20:]` appending role/content pairs. -/
def generate_openai_response_prompt (history : List Message) : List PromptMsg :=
  (lastN 20 history).foldl
    (fun messages msg => messages ++ [{ role := msg.role, content := msg.content }])
    [{ role := "system", content := SYSTEM_MESSAGE }]

/-- Prompt built in `generate_stream_response` (the same loop, duplicated in the source). -/
def generate_stream_response_prompt (history : List Message) : List PromptMsg :=
  (lastN 20 history).foldl
    (fun messages msg => messages ++ [{ role := msg.role, content := msg.content }])
    [{ role := "system", content := SYSTEM_MESSAGE }]

/-- One server-sent event written by the streaming generator. -/
inductive StreamEvent where
  | content (s : String)
  | done
  | error (s : String)
deriving DecidableEq, Repr

/-- One step of the streaming generator body: emit an SSE event, or append to the session. -/
inductive Action where
  | emit (e : StreamEvent)
  | append (m : Message)
deriving DecidableEq, Repr

/-- The upstream OpenAI client, as an oracle.  `complete` is the non-streaming
call: prompt and model to response text or raised error description.
`streamChunks` is the streaming call: prompt and model to the delta contents
delivered before the iterator finished (or raised the given error). -/
structure Upstream where
  complete : List PromptMsg → String → Except String String
  streamChunks : List PromptMsg → String → List (Option String) × Option String

/-- The `for chunk in stream` loop: skip `None` deltas, emit each content
fragment and accumulate it into `full_response`. -/
def streamLoop : List (Option String) → String → List Action × String
  | [], full => ([], full)
  | none :: cs, full => streamLoop cs full
  | some c :: cs, full =>
      let r := streamLoop cs (full ++ c)
      (Action.emit (StreamEvent.content c) :: r.1, r.2)

/-- `generate_openai_response(question, session_id, model)`: build the prompt
and call the upstream completion API; an upstream failure re-raises. -/
def generate_openai_response (up : Upstream) (history : List Message)
    (model : String) : Except String String :=
  up.complete (generate_openai_response_prompt history) model

/-- `generate_stream_response(question, session_id, model)`, returning the
trace of generator actions and the advanced clock.  On normal completion the
accumulated text is appended (timestamped by a clock read) and a done event
follows; a mid-stream failure is caught and turned into a terminal error
event with no append. -/
def generate_stream_response (up : Upstream) (history : List Message)
    (model : String) (clock : Nat) : List Action × Nat :=
  let messages := generate_stream_response_prompt history
  let r := up.streamChunks messages model
  let e := streamLoop r.1 ""
  match r.2 with
  | none =>
      (e.1 ++ [Action.append { role := "assistant", content := e.2, timestamp := clock },
               Action.emit StreamEvent.done],
       clock + 1)
  | some err =>
      (e.1 ++ [Action.emit (StreamEvent.error ("Error: " ++ err))], clock)

/-- Replay the generator's appends against the session map (the SSE emissions
do not touch it). -/
def applyActions (s : Sessions) (sid : String) : List Action → Sessions
  | [] => s
  | Action.emit _ :: rest => applyActions s sid rest
  | Action.append m :: rest => applyActions (appendMsg s sid m) sid rest

/-- The events of an action trace, in emission order. -/
def eventsOf : List Action → List StreamEvent
  | [] => []
  | Action.emit e :: rest => e :: eventsOf rest
  | Action.append _ :: rest => eventsOf rest

/-- The JSON body of a `/api/chat` request; absent fields are `none`. -/
structure ChatRequest where
  question : Option String
  session_id : Option String
  stream : Option Bool
  model : Option String

/-- Observable outcome of the `chat` handler: an HTTP error status with its
message, a non-streaming success body, or a streaming response carrying the
generator's action trace. -/
inductive ChatOutcome where
  | httpError (status : Nat) (message : String)
  | success (result : String) (session_id : String) (model : String)
  | streamResponse (actions : List Action)
deriving DecidableEq, Repr

/-- Python `needle in hay` on strings: contiguous substring containment. -/
def containsSub (needle hay : List Char) : Bool :=
  hay.tails.any (fun t => needle.isPrefixOf t)

/-- `error_message.lower()`, as a character list. -/
def pyLower (s : String) : List Char :=
  s.toList.map Char.toLower

/-- The `except Exception` clause of `chat`: classify the failure description
by substring matching on its lowercase form. -/
def handle_chat_exception (e : String) : ChatOutcome :=
  if containsSub "api_key".toList (pyLower e) then
    ChatOutcome.httpError 401 "Invalid OpenAI API key. Please check your .env file"
  else if containsSub "quota".toList (pyLower e) then
    ChatOutcome.httpError 429 "OpenAI quota exceeded. Please check your billing"
  else
    ChatOutcome.httpError 500 ("An error occurred: " ++ e)

/-- The `/api/chat` handler.  Arguments: whether `OPENAI_API_KEY` is set, the
upstream oracle, the session map, the clock, and the request body.  Returns
the outcome, the session map after the request is fully served (for a
streaming response, after the lazy generator has run), and the clock. -/
def chat (api_key_configured : Bool) (up : Upstream) (s : Sessions)
    (clock : Nat) (req : ChatRequest) : ChatOutcome × Sessions × Nat :=
  let question := pstrip (req.question.getD "")
  let session_id := req.session_id.getD "default"
  let stream := req.stream.getD false
  let model := req.model.getD DEFAULT_MODEL
  if question = "" then
    (ChatOutcome.httpError 400 "Question is required", s, clock)
  else if !api_key_configured then
    (ChatOutcome.httpError 500
      "OpenAI API key not configured. Please set OPENAI_API_KEY in your .env file",
     s, clock)
  else
    let s1 := initSession s session_id
    let t1 := clock
    let s2 := appendMsg s1 session_id { role := "user", content := question, timestamp := t1 }
    if stream then
      let g := generate_stream_response up ((getSess s2 session_id).getD []) model (clock + 1)
      (ChatOutcome.streamResponse g.1, applyActions s2 session_id g.1, g.2)
    else
      match generate_openai_response up ((getSess s2 session_id).getD []) model with
      | Except.ok text =>
          let s3 := appendMsg s2 session_id
            { role := "assistant", content := text, timestamp := clock + 1 }
          (ChatOutcome.success text session_id model, s3, clock + 2)
      | Except.error e => (handle_chat_exception e, s2, clock + 1)

/-- One element of the `/api/sessions` listing. -/
structure SessionSummary where
  id : String
  title : String
  message_count : Nat
  last_updated : Nat
deriving DecidableEq, Repr

/-- The summary built for one non-empty session: title from the first user
message truncated to 50 characters (placeholder `"New Chat"` otherwise),
message count, and the last message's timestamp. -/
def summaryOf (sid : String) (messages : List Message) : SessionSummary :=
  { id := sid
    title := match messages.find? (fun m => m.role = "user") with
             | some m => m.content.take 50
             | none => "New Chat"
    message_count := messages.length
    last_updated := ((messages.getLast?).map Message.timestamp).getD 0 }

/-- Stable insertion into a list sorted descending by `last_updated`. -/
def insertDesc (x : SessionSummary) : List SessionSummary → List SessionSummary
  | [] => [x]
  | y :: ys =>
      if y.last_updated ≤ x.last_updated then x :: y :: ys else y :: insertDesc x ys

/-- `sessions.sort(key=lambda x: x["last_updated"], reverse=True)`: a stable
descending sort. -/
def sortDesc : List SessionSummary → List SessionSummary
  | [] => []
  | x :: xs => insertDesc x (sortDesc xs)

/-- The `/api/sessions` handler: one summary per session with at least one
message, sorted by last update, most recent first. -/
def get_sessions (s : Sessions) : List SessionSummary :=
  sortDesc ((s.filter (fun p => !p.2.isEmpty)).map (fun p => summaryOf p.1 p.2))

/-- Outcome of `GET /api/sessions/<id>`. -/
inductive GetSessionResult where
  | ok (session_id : String) (messages : List Message)
  | notFound
deriving DecidableEq, Repr

/-- The `GET /api/sessions/<id>` handler. -/
def get_session (s : Sessions) (sid : String) : GetSessionResult :=
  match getSess s sid with
  | some msgs => GetSessionResult.ok sid msgs
  | none => GetSessionResult.notFound

/-- Outcome of `DELETE /api/sessions/<id>`. -/
inductive DeleteResult where
  | ok
  | notFound
deriving DecidableEq, Repr

/-- The `DELETE /api/sessions/<id>` handler: result and updated session map. -/
def delete_session (s : Sessions) (sid : String) : DeleteResult × Sessions :=
  if hasSess s sid then (DeleteResult.ok, delSess s sid) else (DeleteResult.notFound, s)

/-- The `POST /api/clear` handler: `chat_sessions.clear()`, always succeeds. -/
def clear_all (_s : Sessions) : Sessions := []

/-! ### Basic lemmas about the session map -/

theorem getSess_setSess_self (s : Sessions) (sid : String) (v : List Message) :
    getSess (setSess s sid v) sid = some v := by
  induction s with
  | nil => simp [setSess, getSess]
  | cons p rest ih =>
      obtain ⟨k, w⟩ := p
      by_cases h : k = sid
      · simp [setSess, getSess, h]
      · simp [setSess, getSess, h, ih]

theorem getSess_initSession (s : Sessions) (sid : String) :
    getSess (initSession s sid) sid = some ((getSess s sid).getD []) := by
  unfold initSession hasSess
  cases h : getSess s sid with
  | none => simp [h, getSess_setSess_self]
  | some v => simp [h]

theorem getSess_appendMsg (s : Sessions) (sid : String) (m : Message) :
    getSess (appendMsg s sid m) sid = some ((getSess s sid).getD [] ++ [m]) := by
  simp [appendMsg, getSess_setSess_self]

theorem getSess_eq_none_of_not_mem (s : Sessions) (sid : String)
    (h : sid ∉ s.map Prod.fst) : getSess s sid = none := by
  induction s with
  | nil => rfl
  | cons p rest ih =>
      obtain ⟨k, w⟩ := p
      simp only [List.map_cons, List.mem_cons, not_or] at h
      have hk : ¬k = sid := fun hk => h.1 hk.symm
      simp [getSess, hk, ih h.2]

theorem getSess_delSess_self (s : Sessions) (sid : String)
    (hnd : (s.map Prod.fst).Nodup) : getSess (delSess s sid) sid = none := by
  induction s with
  | nil => rfl
  | cons p rest ih =>
      obtain ⟨k, w⟩ := p
      simp only [List.map_cons, List.nodup_cons] at hnd
      by_cases h : k = sid
      · subst h
        simpa [delSess] using getSess_eq_none_of_not_mem rest k hnd.1
      · simp [delSess, getSess, h, ih hnd.2]

/-! ### Lemmas about prompt assembly -/

theorem foldl_append_eq_map (l : List Message) (init : List PromptMsg) :
    l.foldl (fun messages msg =>
        messages ++ [{ role := msg.role, content := msg.content }]) init
      = init ++ l.map (fun msg => { role := msg.role, content := msg.content }) := by
  induction l generalizing init with
  | nil => simp
  | cons m rest ih => simp [List.foldl_cons, ih]

theorem generate_openai_response_prompt_eq (history : List Message) :
    generate_openai_response_prompt history =
      { role := "system", content := SYSTEM_MESSAGE } ::
        (lastN 20 history).map (fun m => { role := m.role, content := m.content }) := by
  simp [generate_openai_response_prompt, foldl_append_eq_map]

theorem generate_stream_response_prompt_eq (history : List Message) :
    generate_stream_response_prompt history =
      { role := "system", content := SYSTEM_MESSAGE } ::
        (lastN 20 history).map (fun m => { role := m.role, content := m.content }) := by
  simp [generate_stream_response_prompt, foldl_append_eq_map]

theorem lastN_concat_getLast (l : List Message) (m : Message) :
    (lastN 20 (l ++ [m])).getLast? = some m := by
  unfold lastN
  have hlen : (l ++ [m]).length - 20 ≤ l.length := by
    simp only [List.length_append, List.length_singleton]
    omega
  rw [List.drop_append_of_le_length hlen, List.getLast?_concat]

/-! ### Lemmas about the streaming generator -/

/-- The concatenation of a list of text fragments, in order. -/
def concatFragments : List String → String
  | [] => ""
  | c :: cs => c ++ concatFragments cs

theorem streamLoop_eq (cs : List (Option String)) (acc : String) :
    streamLoop cs acc =
      ((cs.filterMap id).map (fun c => Action.emit (StreamEvent.content c)),
       acc ++ concatFragments (cs.filterMap id)) := by
  induction cs generalizing acc with
  | nil => simp [streamLoop, concatFragments, String.append_empty]
  | cons c rest ih =>
      cases c with
      | none => simpa [streamLoop] using ih acc
      | some str =>
          simp [streamLoop, ih, concatFragments, String.append_assoc]

theorem applyActions_append (s : Sessions) (sid : String) (l₁ l₂ : List Action) :
    applyActions s sid (l₁ ++ l₂) = applyActions (applyActions s sid l₁) sid l₂ := by
  induction l₁ generalizing s with
  | nil => simp [applyActions]
  | cons a rest ih => cases a <;> simp [applyActions, ih]

theorem applyActions_emit_map (s : Sessions) (sid : String) (cs : List String) :
    applyActions s sid (cs.map (fun c => Action.emit (StreamEvent.content c))) = s := by
  induction cs with
  | nil => rfl
  | cons c rest ih => simpa [applyActions] using ih

theorem eventsOf_append (l₁ l₂ : List Action) :
    eventsOf (l₁ ++ l₂) = eventsOf l₁ ++ eventsOf l₂ := by
  induction l₁ with
  | nil => simp [eventsOf]
  | cons a rest ih => cases a <;> simp [eventsOf, ih]

theorem eventsOf_emit_map (cs : List String) :
    eventsOf (cs.map (fun c => Action.emit (StreamEvent.content c)))
      = cs.map StreamEvent.content := by
  induction cs with
  | nil => rfl
  | cons c rest ih => simp [eventsOf, ih]

/-! ### Lemmas about the session-list sort -/

theorem insertDesc_perm (x : SessionSummary) (l : List SessionSummary) :
    (insertDesc x l).Perm (x :: l) := by
  induction l with
  | nil => exact List.Perm.refl _
  | cons y ys ih =>
      by_cases h : y.last_updated ≤ x.last_updated
      · simp [insertDesc, h]
      · simp only [insertDesc, h, if_false]
        exact (ih.cons y).trans (List.Perm.swap x y ys)

theorem sortDesc_perm (l : List SessionSummary) : (sortDesc l).Perm l := by
  induction l with
  | nil => exact List.Perm.refl _
  | cons x xs ih => exact (insertDesc_perm x (sortDesc xs)).trans (ih.cons x)

theorem insertDesc_pairwise (x : SessionSummary) (l : List SessionSummary)
    (hl : l.Pairwise (fun a b => b.last_updated ≤ a.last_updated)) :
    (insertDesc x l).Pairwise (fun a b => b.last_updated ≤ a.last_updated) := by
  induction l with
  | nil => simp [insertDesc]
  | cons y ys ih =>
      rcases List.pairwise_cons.mp hl with ⟨hy, hys⟩
      by_cases h : y.last_updated ≤ x.last_updated
      · simp only [insertDesc, h, if_true, List.pairwise_cons]
        exact ⟨fun z hz => by
          rcases List.mem_cons.mp hz with rfl | hz'
          · exact h
          · exact le_trans (hy z hz') h, hy, hys⟩
      · simp only [insertDesc, h, if_false, List.pairwise_cons]
        refine ⟨fun z hz => ?_, ih hys⟩
        rcases List.mem_cons.mp ((insertDesc_perm x ys).mem_iff.mp hz) with rfl | hz'
        · exact Nat.le_of_not_le h
        · exact hy z hz'

theorem sortDesc_pairwise (l : List SessionSummary) :
    (sortDesc l).Pairwise (fun a b => b.last_updated ≤ a.last_updated) := by
  induction l with
  | nil => simp [sortDesc]
  | cons x xs ih => exact insertDesc_pairwise x (sortDesc xs) ih

/-! ### Claims -/

/-- C5: a send whose question is empty or whitespace-only after trimming fails
with HTTP 400 and leaves the session map (and the clock) completely unchanged:
no session is created and no message is appended. -/
theorem chat_empty_question_rejected (key : Bool) (up : Upstream) (s : Sessions)
    (clock : Nat) (req : ChatRequest)
    (hq : pstrip (req.question.getD "") = "") :
    chat key up s clock req = (ChatOutcome.httpError 400 "Question is required", s, clock) := by
  simp [chat, hq]

theorem chat_empty_question_rejected_witness :
    chat true { complete := fun _ _ => Except.ok "x", streamChunks := fun _ _ => ([], none) }
        [] 0 { question := some "   ", session_id := none, stream := none, model := none }
      = (ChatOutcome.httpError 400 "Question is required", [], 0) :=
  chat_empty_question_rejected true _ [] 0 _ (by decide)

/-- C9: `clear_all` removes every session regardless of prior state, and a
subsequent `get_sessions` returns the empty sequence. -/
theorem clear_all_then_list_empty (s : Sessions) :
    clear_all s = [] ∧ get_sessions (clear_all s) = [] :=
  ⟨rfl, rfl⟩

/-- C10: omitted request fields take fixed defaults: a missing `session_id`
uses the key `"default"`, a missing `model` uses `DEFAULT_MODEL` (which is
`"gpt-3.5-turbo"`), and a missing `stream` flag selects the non-streaming
path — the request behaves exactly as one with those fields filled in. -/
theorem chat_request_defaults (key : Bool) (up : Upstream) (s : Sessions)
    (clock : Nat) (q : Option String) :
    chat key up s clock { question := q, session_id := none, stream := none, model := none } =
      chat key up s clock
        { question := q, session_id := some "default", stream := some false,
          model := some DEFAULT_MODEL } ∧
    DEFAULT_MODEL = "gpt-3.5-turbo" :=
  ⟨rfl, rfl⟩

/-- C8: `get_session` and `delete_session` on an unknown key both fail with
not-found (HTTP 404); on a known key, `delete_session` removes the session so
that a subsequent `get_session` on the same key fails with not-found. -/
theorem session_lookup_delete (s : Sessions) (sid : String)
    (hnd : (s.map Prod.fst).Nodup) :
    (getSess s sid = none →
       get_session s sid = GetSessionResult.notFound ∧
       delete_session s sid = (DeleteResult.notFound, s)) ∧
    (∀ msgs, getSess s sid = some msgs →
       (delete_session s sid).1 = DeleteResult.ok ∧
       get_session (delete_session s sid).2 sid = GetSessionResult.notFound) := by
  constructor
  · intro h
    constructor
    · simp [get_session, h]
    · simp [delete_session, hasSess, h]
  · intro msgs h
    constructor
    · simp [delete_session, hasSess, h]
    · simp [delete_session, hasSess, h, get_session, getSess_delSess_self s sid hnd]

theorem session_lookup_delete_witness :
    get_session
        (delete_session [("s1", [{ role := "user", content := "Hello", timestamp := 0 }])] "s1").2
        "s1"
      = GetSessionResult.notFound :=
  ((session_lookup_delete
      [("s1", [{ role := "user", content := "Hello", timestamp := 0 }])] "s1" (by decide)).2
    [{ role := "user", content := "Hello", timestamp := 0 }] rfl).2

/-- C6: when the upstream call of a non-streaming send raises a failure, the
handler classifies it by inspecting the failure's textual description
(lowercased): credential-related wording (`"api_key"`) yields HTTP 401,
otherwise quota/billing wording (`"quota"`) yields HTTP 429, and any other
upstream failure yields a generic HTTP 500, and the session map keeps the
already-appended user message. -/
theorem chat_upstream_error_classified (up : Upstream) (e : String) (s : Sessions)
    (clock : Nat) (req : ChatRequest)
    (hq : pstrip (req.question.getD "") ≠ "")
    (hst : req.stream.getD false = false)
    (hup : ∀ p m, up.complete p m = Except.error e) :
    (chat true up s clock req).1 = handle_chat_exception e ∧
    (containsSub "api_key".toList (pyLower e) = true →
      handle_chat_exception e =
        ChatOutcome.httpError 401 "Invalid OpenAI API key. Please check your .env file") ∧
    (containsSub "api_key".toList (pyLower e) = false →
      containsSub "quota".toList (pyLower e) = true →
      handle_chat_exception e =
        ChatOutcome.httpError 429 "OpenAI quota exceeded. Please check your billing") ∧
    (containsSub "api_key".toList (pyLower e) = false →
      containsSub "quota".toList (pyLower e) = false →
      handle_chat_exception e =
        ChatOutcome.httpError 500 ("An error occurred: " ++ e)) := by
  refine ⟨?_, ?_, ?_, ?_⟩
  · simp [chat, hq, hst, generate_openai_response, hup]
  · intro h; unfold handle_chat_exception; rw [h]; simp
  · intro h1 h2; unfold handle_chat_exception; rw [h1, h2]; simp
  · intro h1 h2; unfold handle_chat_exception; rw [h1, h2]; simp

theorem chat_upstream_error_classified_witness :
    (chat true
        { complete := fun _ _ => Except.error "Incorrect API_KEY provided",
          streamChunks := fun _ _ => ([], none) }
        [] 0 { question := some "Hi", session_id := none, stream := none, model := none }).1
      = ChatOutcome.httpError 401 "Invalid OpenAI API key. Please check your .env file" := by
  have h := chat_upstream_error_classified
    { complete := fun _ _ => Except.error "Incorrect API_KEY provided",
      streamChunks := fun _ _ => ([], none) }
    "Incorrect API_KEY provided" [] 0
    { question := some "Hi", session_id := none, stream := none, model := none }
    (by decide) rfl (fun _ _ => rfl)
  exact h.1.trans (h.2.1 (by decide))

/-- C2: the prompt assembled for an upstream call — identically on the
streaming and non-streaming paths — is exactly the fixed system instruction
message followed by the last 20 messages of the session's history in
chronological order, taken after the new user message has been appended, so
the latest user message is always the prompt's last entry; no other trimming
is performed. -/
theorem prompt_assembly (hist : List Message) (q : String) (t : Nat) :
    generate_openai_response_prompt (hist ++ [{ role := "user", content := q, timestamp := t }]) =
      { role := "system", content := SYSTEM_MESSAGE } ::
        (lastN 20 (hist ++ [{ role := "user", content := q, timestamp := t }])).map
          (fun m => { role := m.role, content := m.content }) ∧
    generate_stream_response_prompt (hist ++ [{ role := "user", content := q, timestamp := t }]) =
      generate_openai_response_prompt (hist ++ [{ role := "user", content := q, timestamp := t }]) ∧
    (generate_openai_response_prompt
        (hist ++ [{ role := "user", content := q, timestamp := t }])).getLast? =
      some { role := "user", content := q } := by
  refine ⟨generate_openai_response_prompt_eq _, ?_, ?_⟩
  · rw [generate_stream_response_prompt_eq, generate_openai_response_prompt_eq]
  · rw [generate_openai_response_prompt_eq, ← List.singleton_append, List.getLast?_append,
      List.getLast?_map, lastN_concat_getLast]
    rfl

/-- C1: a successful non-streaming send (non-empty question after trimming,
credential configured, upstream returns `text`) grows the session identified
by the request's session id by exactly two messages — a user message followed
by an assistant message, in that order, with increasing timestamps — and
returns the upstream text together with the session id and model. -/
theorem chat_nonstream_success (up : Upstream) (text : String) (s : Sessions)
    (clock : Nat) (req : ChatRequest)
    (hq : pstrip (req.question.getD "") ≠ "")
    (hst : req.stream.getD false = false)
    (hup : ∀ p m, up.complete p m = Except.ok text) :
    (chat true up s clock req).1 =
      ChatOutcome.success text (req.session_id.getD "default") (req.model.getD DEFAULT_MODEL) ∧
    ∃ t1 t2, t1 < t2 ∧
      getSess (chat true up s clock req).2.1 (req.session_id.getD "default") =
        some ((getSess s (req.session_id.getD "default")).getD [] ++
          [{ role := "user", content := pstrip (req.question.getD ""), timestamp := t1 },
           { role := "assistant", content := text, timestamp := t2 }]) := by
  constructor
  · simp [chat, hq, hst, generate_openai_response, hup]
  · refine ⟨clock, clock + 1, Nat.lt_succ_self clock, ?_⟩
    simp [chat, hq, hst, generate_openai_response, hup, getSess_appendMsg,
      getSess_initSession, List.append_assoc]

theorem chat_nonstream_success_witness :
    (chat true
        { complete := fun _ _ => Except.ok "Hi there", streamChunks := fun _ _ => ([], none) }
        [] 0
        { question := some "Hello", session_id := some "s1", stream := some false,
          model := some "model-x" }).1
      = ChatOutcome.success "Hi there" "s1" "model-x" := by
  have h := chat_nonstream_success
    { complete := fun _ _ => Except.ok "Hi there", streamChunks := fun _ _ => ([], none) }
    "Hi there" [] 0
    { question := some "Hello", session_id := some "s1", stream := some false,
      model := some "model-x" }
    (by decide) rfl (fun _ _ => rfl)
  exact h.1.trans (by decide)

/-- C3: a successful streaming send emits each upstream fragment as a content
event in arrival order, grows the session by exactly two messages, appends an
assistant message whose content is the concatenation of every emitted
fragment in emission order, and emits the terminal done event after that
append. -/
theorem chat_stream_success (up : Upstream) (chunks : List (Option String)) (s : Sessions)
    (clock : Nat) (req : ChatRequest)
    (hq : pstrip (req.question.getD "") ≠ "")
    (hst : req.stream.getD false = true)
    (hup : ∀ p m, up.streamChunks p m = (chunks, none)) :
    (chat true up s clock req).1 =
      ChatOutcome.streamResponse
        ((chunks.filterMap id).map (fun c => Action.emit (StreamEvent.content c)) ++
          [Action.append
             { role := "assistant", content := concatFragments (chunks.filterMap id),
               timestamp := clock + 1 },
           Action.emit StreamEvent.done]) ∧
    eventsOf ((chunks.filterMap id).map (fun c => Action.emit (StreamEvent.content c)) ++
        [Action.append
           { role := "assistant", content := concatFragments (chunks.filterMap id),
             timestamp := clock + 1 },
         Action.emit StreamEvent.done]) =
      (chunks.filterMap id).map StreamEvent.content ++ [StreamEvent.done] ∧
    ∃ t1 t2, t1 < t2 ∧
      getSess (chat true up s clock req).2.1 (req.session_id.getD "default") =
        some ((getSess s (req.session_id.getD "default")).getD [] ++
          [{ role := "user", content := pstrip (req.question.getD ""), timestamp := t1 },
           { role := "assistant", content := concatFragments (chunks.filterMap id),
             timestamp := t2 }]) := by
  refine ⟨?_, ?_, clock, clock + 1, Nat.lt_succ_self clock, ?_⟩
  · simp [chat, hq, hst, generate_stream_response, hup, streamLoop_eq, String.empty_append]
  · simp [eventsOf_append, eventsOf_emit_map, eventsOf]
  · simp [chat, hq, hst, generate_stream_response, hup, streamLoop_eq, String.empty_append,
      applyActions_append, applyActions_emit_map, applyActions, getSess_appendMsg,
      getSess_initSession, List.append_assoc]

theorem chat_stream_success_witness :
    (chat true
        { complete := fun _ _ => Except.error "x",
          streamChunks := fun _ _ => ([some "Hel", none, some "lo"], none) }
        [] 0 { question := some "Hi", session_id := none, stream := some true, model := none }).1
      = ChatOutcome.streamResponse
          [Action.emit (StreamEvent.content "Hel"), Action.emit (StreamEvent.content "lo"),
           Action.append { role := "assistant", content := "Hello", timestamp := 1 },
           Action.emit StreamEvent.done] := by
  have h := chat_stream_success
    { complete := fun _ _ => Except.error "x",
      streamChunks := fun _ _ => ([some "Hel", none, some "lo"], none) }
    [some "Hel", none, some "lo"] [] 0
    { question := some "Hi", session_id := none, stream := some true, model := none }
    (by decide) rfl (fun _ _ => rfl)
  exact h.1.trans (by decide)

/-- C4: a streaming send whose upstream call fails mid-stream emits the
fragments delivered so far and then a terminal error event carrying the
failure description instead of a done event; no assistant message (not even a
partial accumulation) is appended, so the session history ends with the user
message. -/
theorem chat_stream_failure (up : Upstream) (chunks : List (Option String)) (err : String)
    (s : Sessions) (clock : Nat) (req : ChatRequest)
    (hq : pstrip (req.question.getD "") ≠ "")
    (hst : req.stream.getD false = true)
    (hup : ∀ p m, up.streamChunks p m = (chunks, some err)) :
    (chat true up s clock req).1 =
      ChatOutcome.streamResponse
        ((chunks.filterMap id).map (fun c => Action.emit (StreamEvent.content c)) ++
          [Action.emit (StreamEvent.error ("Error: " ++ err))]) ∧
    eventsOf ((chunks.filterMap id).map (fun c => Action.emit (StreamEvent.content c)) ++
        [Action.emit (StreamEvent.error ("Error: " ++ err))]) =
      (chunks.filterMap id).map StreamEvent.content ++
        [StreamEvent.error ("Error: " ++ err)] ∧
    (∀ m : Message,
      Action.append m ∉
        (chunks.filterMap id).map (fun c => Action.emit (StreamEvent.content c)) ++
          [Action.emit (StreamEvent.error ("Error: " ++ err))]) ∧
    ∃ t1,
      getSess (chat true up s clock req).2.1 (req.session_id.getD "default") =
        some ((getSess s (req.session_id.getD "default")).getD [] ++
          [{ role := "user", content := pstrip (req.question.getD ""), timestamp := t1 }]) := by
  refine ⟨?_, ?_, ?_, clock, ?_⟩
  · simp [chat, hq, hst, generate_stream_response, hup, streamLoop_eq, String.empty_append]
  · simp [eventsOf_append, eventsOf_emit_map, eventsOf]
  · intro m
    simp [List.mem_append, List.mem_map]
  · simp [chat, hq, hst, generate_stream_response, hup, streamLoop_eq, String.empty_append,
      applyActions_append, applyActions_emit_map, applyActions, getSess_appendMsg,
      getSess_initSession]

theorem chat_stream_failure_witness :
    (chat true
        { complete := fun _ _ => Except.error "x",
          streamChunks := fun _ _ => ([some "He"], some "boom") }
        [] 0 { question := some "Hi", session_id := none, stream := some true, model := none }).1
      = ChatOutcome.streamResponse
          [Action.emit (StreamEvent.content "He"),
           Action.emit (StreamEvent.error "Error: boom")] := by
  have h := chat_stream_failure
    { complete := fun _ _ => Except.error "x",
      streamChunks := fun _ _ => ([some "He"], some "boom") }
    [some "He"] "boom" [] 0
    { question := some "Hi", session_id := none, stream := some true, model := none }
    (by decide) rfl (fun _ _ => rfl)
  exact h.1.trans (by decide)

/-- C7: `get_sessions` returns one summary per session that has at least one
message (zero-message sessions are excluded), each carrying the session id,
the first user message's content truncated to 50 characters as title (or the
placeholder `"New Chat"` when no user message exists), the message count, and
the last message's timestamp, and the returned sequence is sorted
non-increasing by last-message timestamp. -/
theorem get_sessions_correct (s : Sessions) :
    (get_sessions s).Perm
      ((s.filter (fun p => !p.2.isEmpty)).map (fun p => summaryOf p.1 p.2)) ∧
    (get_sessions s).Pairwise (fun a b => b.last_updated ≤ a.last_updated) ∧
    ∀ sid msgs,
      (summaryOf sid msgs).id = sid ∧
      (summaryOf sid msgs).message_count = msgs.length ∧
      (summaryOf sid msgs).last_updated = ((msgs.getLast?).map Message.timestamp).getD 0 ∧
      (summaryOf sid msgs).title =
        (match msgs.find? (fun m => m.role = "user") with
         | some m => m.content.take 50
         | none => "New Chat") :=
  ⟨sortDesc_perm _, sortDesc_pairwise _, fun _ _ => ⟨rfl, rfl, rfl, rfl⟩⟩

end Relay
